import Mathlib

/-!
# Verification of the Flyfone call-report chat bot (`src/bot.js`)

Shallow embedding of the bot's conversation state machine, portal session
client, report normalizer, stats aggregator and spreadsheet sync adapter.
All definitions are translated from `src/bot.js` (and its `state.js`
companion); theorems check the frozen specification claims against them.

Conventions used throughout the embedding:
* JavaScript `undefined`/absent values are `Option.none`; a raw report cell is
  `Option String` (`cellAt r i` is `r[i]`, `none` when the index is past the
  end of the row array).
* The external Supabase key-value store is modelled per chat identity as the
  record `Store` (credentials, OAuth refresh token, chat session, linked sheet
  id, cookie jar).  Handlers are functions on `Store` that also return the
  list of message texts sent to the chat (HTML wrapping by `replyBold` is
  dropped: we keep the inner text) and, in `raised`, the JavaScript exception
  that aborts the handler, when one is thrown.
* `Date` values are represented by their `dayjs(...).format('YYYY-MM-DD')`
  rendering, so a parse-then-format pipeline is one `Option String`.
-/

set_option autoImplicit false

namespace FlyfoneBot

/-! ## Raw report rows (XLSX → 2D array, `sheet_to_json(..., { header: 1 })`) -/

/-- One cell of a raw report row; `none` is JavaScript `undefined`. -/
abbrev Cell := Option String

/-- One raw report row: `r[0]`, `r[1]`, … -/
abbrev Row := List Cell

/-- JavaScript array indexing `r[i]`: `undefined` past the end. -/
def cellAt (r : Row) (i : Nat) : Cell := (r.get? i).join

/-! ## Persistent per-chat state (`state.js` records for one chat identity) -/

/-- Flyfone portal credential record (`flyfone_creds` table): `{ email, pass }`. -/
structure Creds where
  email : String
  pass : String
deriving DecidableEq, Repr

/-- The per-chat workflow session (`sessions` table).  The JS object is
free-form; these are exactly the fields `bot.js` ever reads or writes, each
`none` when the property is absent/`undefined`. -/
structure ChatSession where
  step : Option String := none
  mode : Option String := none
  connectSheet : Option Bool := none
  sheetId : Option String := none
  email : Option String := none
  rows : Option (List Row) := none
  dateStr : Option String := none
  selectedTeam : Option String := none
deriving DecidableEq, Repr

/-- The empty session object `{}` (also what spreading `null` produces). -/
def emptySession : ChatSession := {}

/-- The slice of the external store belonging to one chat identity:
portal credentials, Google OAuth refresh token, workflow session, linked
sheet id (`sheet_map`), and the serialized portal cookie jar. -/
structure Store where
  flyfoneCreds : Option Creds := none
  refreshToken : Option String := none
  session : Option ChatSession := none
  sheetId : Option String := none
  cookies : Option String := none
deriving DecidableEq, Repr

/-! ## Handler outcomes -/

/-- One call to `writeToSheet(chatId, spreadsheetId, rows, overwrite)`. -/
structure SheetWrite where
  sheetId : Option String
  values : List (List Cell)
  overwrite : Bool
deriving DecidableEq, Repr

/-- Result of running one chat-event handler: the updated store slice, the
texts sent to the chat (in order), the spreadsheet writes issued, and the
JavaScript exception that aborted the handler, if any (messages/writes/store
mutations that happened before the throw are kept). -/
structure HOut where
  store : Store
  msgs : List String := []
  sheetWrites : List SheetWrite := []
  raised : Option String := none
deriving DecidableEq, Repr

/-! ## Message texts (inner text of the HTML the bot sends) -/

def sessionExpiredMsg : String := "Session expired! Restarting..."
def modeChoicePrompt : String := "Do you want to connect your Google Sheet?"
def chatModeEnabledMsg : String := "Chat mode enabled!\n\n Fetch /fetch to start."
def sheetUrlPrompt : String :=
  "Please send your Sheet URL using:\n\n \"/sheet + <URL/ID>\""
def chatDatePrompt : String := "Select a date to view in chat:"
def sheetDatePrompt : String := "Please choose a date:"
def loggedOutMsg : String :=
  "You’ve been logged out.\n\nYour Flyfone credentials and session have been cleared.\nUse /fetch (or /start) again to log back in."

/-! ## The session guard (`withSessionGuard`, bot.js lines 229-248)

Loads the chat's session; when none is stored it replies with the
session-expired notice, deletes the (already absent) session and re-issues the
mode-choice keyboard, never running the wrapped handler body. -/

def withSessionGuard (handler : Store → HOut) (s : Store) : HOut :=
  match s.session with
  | none =>
      { store := { s with session := none }
        msgs := [sessionExpiredMsg, modeChoicePrompt] }
  | some _ => handler s

/-! ## `linkSheet:yes` / `linkSheet:no` callbacks (bot.js lines 288-306) -/

/-- `linkSheet:yes`: merge `{connectSheet: true, mode: 'sheet',
step: 'await_sheet_url'}` into the existing session (spreading `null` when no
session is stored yields the empty object). -/
def linkSheetYesHandler (s : Store) : HOut :=
  let prev := s.session.getD emptySession
  let next := { prev with connectSheet := some true, mode := some "sheet",
                          step := some "await_sheet_url" }
  { store := { s with session := some next }
    msgs := [sheetUrlPrompt] }

/-- `linkSheet:no`: the stored session is replaced wholesale by the object
`{ connectSheet: false, mode: 'chat' }`. -/
def linkSheetNoHandler (s : Store) : HOut :=
  let next := { emptySession with connectSheet := some false, mode := some "chat" }
  { store := { s with session := some next }
    msgs := [chatModeEnabledMsg] }

/-! ## `/fetch` sub-flows (bot.js lines 461-514)

Both flows re-load the session and then mutate it in place
(`sess.step = '…'`).  When no session is stored, `getSession` returns `null`
and the property assignment throws
`TypeError: Cannot set properties of null`. -/

/-- `beginChatFlow`: set `step` to `chat_await_date` and show the calendar. -/
def beginChatFlow (s : Store) : HOut :=
  match s.session with
  | none => { store := s, raised := some "TypeError: Cannot set properties of null" }
  | some sess =>
      let next := { sess with step := some "chat_await_date" }
      { store := { s with session := some next }
        msgs := [chatDatePrompt] }

/-- `beginSheetFlow`: after the sheet-id and credential checks, set `step` to
`sheet_await_date` and show the calendar; `sess.step = …` throws on a missing
session just as in `beginChatFlow`. -/
def beginSheetFlow (s : Store) : HOut :=
  match s.sheetId with
  | none => { store := s, msgs := ["Send /sheet first."] }
  | some _ =>
    match s.flyfoneCreds with
    | none => { store := s, msgs := ["You are not logged in. Use /start to log in."] }
    | some _ =>
      match s.session with
      | none => { store := s, raised := some "TypeError: Cannot set properties of null" }
      | some sess =>
          let next := { sess with step := some "sheet_await_date" }
          { store := { s with session := some next }
            msgs := [sheetDatePrompt] }

/-! ## `/logout` (bot.js lines 359-377)

The handler runs
`Promise.all([deleteFlyfoneCreds, deleteRefreshToken, deleteSession,
removeAllCookies, deleteSheet])` and then replies with the logged-out
confirmation.  `state.js` does export `deleteSheet`, but the import list of
`bot.js` (line 14) does not include it, so inside the module's scope the
identifier is unresolved: evaluating `deleteSheet(chatId)` throws a
`ReferenceError` after the first four deletions have been launched, and the
confirmation reply is never sent.  `botModuleImports` is the exact import
list of bot.js line 14. -/

def botModuleImports : List String :=
  ["getRefreshToken", "saveRefreshToken", "getFlyfoneCreds", "deleteFlyfoneCreds",
   "getSession", "deleteSession", "saveFlyfoneCreds", "saveSession", "saveSheet",
   "getSheet", "loadCookies", "saveCookies", "deleteRefreshToken", "removeAllCookies"]

def logoutHandler (s : Store) : HOut :=
  if botModuleImports.contains "deleteSheet" then
    -- what the code plainly intends: clear all five records, then confirm
    { store := { s with flyfoneCreds := none, refreshToken := none,
                        session := none, cookies := none, sheetId := none }
      msgs := [loggedOutMsg] }
  else
    -- actual behaviour: the four launched deletions complete in the
    -- background, the linked sheet id survives, nothing is replied
    { store := { s with flyfoneCreds := none, refreshToken := none,
                        session := none, cookies := none }
      raised := some "ReferenceError: deleteSheet is not defined" }

/-! ## Stats aggregator (chat_agent callback, bot.js lines 568-592)

`filtered.reduce((acc, r) => { const st = r[8]?.toString().trim();
acc[st] = (acc[st] || 0) + 1; return acc; }, {})` — a plain object used as a
counter.  When `r[8]` is `undefined`, `st` is `undefined` and `acc[st]`
addresses the property key `"undefined"`, so every record still lands in
exactly one bucket.  The object is modelled as an association list in
property-insertion order. -/

/-- The status bucket key of a record: `r[8]?.toString().trim()`, with
JavaScript's stringification of an `undefined` property key. -/
def statusKey (r : Row) : String :=
  match cellAt r 8 with
  | some v => v.trim
  | none => "undefined"

/-- `acc[k] = (acc[k] || 0) + 1` on an insertion-ordered association list. -/
def bumpCount : List (String × Nat) → String → List (String × Nat)
  | [], k => [(k, 1)]
  | (k', n) :: rest, k =>
      if k = k' then (k', n + 1) :: rest else (k', n) :: bumpCount rest k

/-- Per-status counts of a record list (the `counts` object of the handler). -/
def countByStatus (records : List Row) : List (String × Nat) :=
  records.foldl (fun acc r => bumpCount acc (statusKey r)) []

/-- The sum of the counter's values. -/
def sumCounts (l : List (String × Nat)) : Nat := (l.map Prod.snd).sum

/-- `counts.X || 0`: look a status up in the counter. -/
def lookupCount (l : List (String × Nat)) (k : String) : Nat :=
  ((l.find? (fun p => p.1 == k)).map Prod.snd).getD 0

/-- `rows.slice(1).filter(r => r[6] === team && r[5] === agent)` — strict
equality against the cell, `undefined === team` being false. -/
def filterTeamAgent (rows : List Row) (team agent : String) : List Row :=
  (rows.drop 1).filter (fun r => cellAt r 6 == some team && cellAt r 5 == some agent)

/-! ## Fuzzy agent matching (`/agent <text>`, bot.js lines 659-674) -/

/-- `String.prototype.toLowerCase()` (character-wise lowercasing). -/
def lowerStr (s : String) : String := ⟨s.toList.map Char.toLower⟩

/-- Levenshtein edit distance (the `js-levenshtein` package), written with a
structural fuel argument; `a.length + b.length` steps always suffice because
every recursive call shortens the combined length, and once one side is empty
the answer is the other side's length (which the fuel-0 clause also returns on
an empty side). -/
def levFuel : Nat → List Char → List Char → Nat
  | 0, a, b => a.length + b.length
  | _ + 1, [], b => b.length
  | _ + 1, a@(_ :: _), [] => a.length
  | fuel + 1, x :: xs, y :: ys =>
      if x = y then levFuel fuel xs ys
      else 1 + min (levFuel fuel xs ys)
                (min (levFuel fuel (x :: xs) ys) (levFuel fuel xs (y :: ys)))

/-- `levenshtein(a, b)` on strings. -/
def levDist (a b : String) : Nat := levFuel (a.length + b.length) a.toList b.toList

/-- `hay.includes(needle)` (substring containment). -/
def strIncludes (hay needle : String) : Bool :=
  (List.range (hay.toList.length + 1)).any
    (fun i => needle.toList.isPrefixOf (hay.toList.drop i))

/-- The per-candidate score: `levenshtein(a.toLowerCase(), input)`. -/
def levScore (input a : String) : Nat := levDist (lowerStr a) input

/-- One iteration of the `/agent` edit-distance loop:
`if (score < bestScore) { bestScore = score; best = a; }`. -/
def levStep (input : String) (acc : Option (String × Nat)) (a : String) :
    Option (String × Nat) :=
  let score := levScore input a
  match acc with
  | none => some (a, score)
  | some (b, sc) => if score < sc then some (a, score) else some (b, sc)

/-- The edit-distance loop of `/agent`: `best`/`bestScore` starting from
`null`/`Infinity`, keeping the first candidate on ties. -/
def levBest (agents : List String) (input : String) : Option (String × Nat) :=
  agents.foldl (levStep input) none

/-- The complete `/agent` matcher: lowercase the query, track the minimum
edit distance, independently find a lowercased-substring match, then
`agent = (substringMatch && bestScore > 2) ? substringMatch : best`. -/
def bestAgentMatch (agents : List String) (query : String) : Option String :=
  match levBest agents (lowerStr query),
        agents.find? (fun a => strIncludes (lowerStr a) (lowerStr query)) with
  | some (b, sc), some s => if 2 < sc then some s else some b
  | some (b, _), none => some b
  | none, _ => none

/-- Specification-side minimum of the per-candidate edit-distance scores
(`none` on an empty candidate list). -/
def minScore? (agents : List String) (input : String) : Option Nat :=
  match agents.map (levScore input) with
  | [] => none
  | x :: xs => some (xs.foldl min x)

/-! ## Chat-mode callbacks (bot.js lines 549-592) -/

/-- The stats text rendered for one agent (`editMessageText`, tags dropped);
`${dateStr}` renders `undefined` when the session has no `dateStr`. -/
def agentStatsMsg (agent : String) (dateStr : Option String) (filtered : List Row) : String :=
  let counts := countByStatus filtered
  let d := dateStr.getD "undefined"
  let total := filtered.length
  let ans := lookupCount counts "ANSWER"
  let can := lookupCount counts "CANCEL"
  let busy := lookupCount counts "BUSY"
  s!"Name: {agent}\nDate: {d}\nCalls: {total}\nAnswered: {ans}\nCancelled: {can}\nBusy: {busy}"

/-- Body of the `chat_team:<team>` callback: destructure `rows` from the
session, persist `selectedTeam`, then build the agent keyboard —
`rows.slice(1)` throws a `TypeError` when the session has no `rows`. -/
def chatTeamBody (team : String) (s : Store) : HOut :=
  match s.session with
  | none => { store := s, raised := some "TypeError: Cannot destructure null" }
  | some sess =>
      let saved := { s with session := some ({ sess with selectedTeam := some team }) }
      match sess.rows with
      | none => { store := saved, raised := some "TypeError: rows is undefined" }
      | some _ => { store := saved, msgs := [s!"Team: {team}\nSelect an agent:"] }

/-- The registered `chat_team` handler (wrapped in the session guard). -/
def chatTeamHandler (team : String) : Store → HOut :=
  withSessionGuard (chatTeamBody team)

/-- Body of the `chat_agent:<team>|<agent>` callback: filter the cached rows
by strict team/agent equality and render the per-status stats. -/
def chatAgentBody (team agent : String) (s : Store) : HOut :=
  match s.session with
  | none => { store := s, raised := some "TypeError: Cannot destructure null" }
  | some sess =>
      match sess.rows with
      | none => { store := s, raised := some "TypeError: rows is undefined" }
      | some rows =>
          { store := s
            msgs := [agentStatsMsg agent sess.dateStr (filterTeamAgent rows team agent)] }

/-- The registered `chat_agent` handler (wrapped in the session guard). -/
def chatAgentHandler (team agent : String) : Store → HOut :=
  withSessionGuard (chatAgentBody team agent)

/-! ## Sheet-mode callbacks (bot.js lines 881-929) -/

/-- Body of the sheet-mode `team:<key>` callback: `getSession || {}` (never
throws), persist `selectedTeam`, ask overwrite vs append. -/
def teamCbBody (team : String) (s : Store) : HOut :=
  let prev := s.session.getD emptySession
  { store := { s with session := some ({ prev with selectedTeam := some team }) }
    msgs := ["Do you want to overwrite existing data, or append?"] }

/-- The registered sheet-mode `team:` handler. -/
def teamCbHandler (team : String) : Store → HOut :=
  withSessionGuard (teamCbBody team)

/-- The fixed 10-column header row of every spreadsheet write. -/
def sheetHeader : List Cell :=
  [some "Caller", some "Team", some "Callee", some "Status", some "Duration (s)",
   some "Talktime (s)", some "Hangup By", some "Call Date", some "Call Time",
   some "End Time"]

/-- One exported data row:
`[r[5], r[6], r[7], r[8], r[9], r[10], r[11], r[1], r[2], r[3]]`. -/
def mapSheetRow (r : Row) : List Cell :=
  [cellAt r 5, cellAt r 6, cellAt r 7, cellAt r 8, cellAt r 9,
   cellAt r 10, cellAt r 11, cellAt r 1, cellAt r 2, cellAt r 3]

/-- `rows.slice(1).filter(r => r[6]?.toString().toLowerCase() === selectedTeam)`
— `===` compares `undefined` with the (possibly absent) `selectedTeam`. -/
def sheetFilter (rows : List Row) (selectedTeam : Option String) : List Row :=
  (rows.drop 1).filter (fun r => (cellAt r 6).map lowerStr == selectedTeam)

/-- Body of the `sheetMode:(overwrite|append)` callback: destructure the
session, filter the cached rows by the selected (lowercased) team, build the
header + mapped rows matrix and hand it to `writeToSheet`. -/
def sheetModeBody (overwrite : Bool) (s : Store) : HOut :=
  match s.session with
  | none => { store := s, raised := some "TypeError: Cannot destructure null" }
  | some sess =>
      match sess.rows with
      | none => { store := s, raised := some "TypeError: rows is undefined" }
      | some rows =>
          let filtered := sheetFilter rows sess.selectedTeam
          let output := sheetHeader :: filtered.map mapSheetRow
          let verb := if overwrite then "Overwrote" else "Appended"
          let teamTxt := (sess.selectedTeam).getD "undefined"
          let dateTxt := (sess.dateStr).getD "undefined"
          let n := filtered.length
          { store := s
            msgs := [s!"{verb} {n} rows for team “{teamTxt}” on {dateTxt}"]
            sheetWrites := [⟨sess.sheetId, output, overwrite⟩] }

/-- The registered `sheetMode:` handler. -/
def sheetModeHandler (overwrite : Bool) : Store → HOut :=
  withSessionGuard (sheetModeBody overwrite)

/-! ## Portal session client (bot.js lines 122-225)

The HTTP world visible to one chat's cookie jar.  `loggedIn` says whether the
jar currently holds a valid portal session (the `GET /dashboard` probe returns
200 exactly then); `csrfToken` is the `name="csrf_webcall" value="…"` marker
scraped from the login page (`none` when the markup changed);
`acceptedCreds` are the credential pairs the portal accepts (a rejected POST
answers 200 with a 'password is incorrect' body); `exportStatus` is the HTTP
status of the export endpoint and `report` the parsed 2D array
(`sheet_to_json(…, { header: 1 })`) it serves for a date.  A successful login
stores the session cookie in the jar and persists it (`saveCookies`), which
is what makes `loggedIn` true afterwards. -/
structure PortalWorld where
  loggedIn : Bool
  csrfToken : Option String
  acceptedCreds : List (String × String)
  exportStatus : Nat
  report : String → List Row

/-- The HTTP requests `ensureLoggedIn`/`downloadFlyfoneReport` can issue. -/
inductive Request
  | probeDashboard
  | getLoginPage
  | postLogin (csrf email password : String)
  | getExport (dateStr : String)
deriving DecidableEq, Repr

/-- Is a request the credential form POST (`POST /login`)? -/
def Request.isLoginPost : Request → Bool
  | .postLogin _ _ _ => true
  | _ => false

/-- The typed failures of the portal client (`throw new Error(...)`). -/
inductive BotError
  | authError (msg : String)
  | protocolError (msg : String)
  | exportError (status : Nat)
deriving DecidableEq, Repr

/-- `err.message` as interpolated into user-facing replies. -/
def BotError.message : BotError → String
  | .authError m => m
  | .protocolError m => m
  | .exportError st => s!"Export failed: {st}"

/-- `ensureLoggedIn` (bot.js lines 122-201): probe `GET /dashboard`; on 200
return at once.  Otherwise fetch the login page, scrape the CSRF token
(missing marker ⇒ 'CSRF token not found'), `POST /login` with
`csrf_webcall + username + password`; a 200 body containing
'password is incorrect' ⇒ 'Incorrect email or password'; on success the
cookie jar is persisted, making the session valid.  Returns the world after
the call, the requests issued (in order) and the outcome. -/
def ensureLoggedIn (w : PortalWorld) (email password : String) :
    PortalWorld × List Request × Except BotError Unit :=
  if w.loggedIn then
    (w, [Request.probeDashboard], Except.ok ())
  else
    match w.csrfToken with
    | none =>
        (w, [Request.probeDashboard, Request.getLoginPage],
         Except.error (BotError.protocolError "CSRF token not found"))
    | some csrf =>
        let reqs := [Request.probeDashboard, Request.getLoginPage,
                     Request.postLogin csrf email password]
        if w.acceptedCreds.contains (email, password) then
          ({ w with loggedIn := true }, reqs, Except.ok ())
        else
          (w, reqs, Except.error (BotError.authError "Incorrect email or password"))

/-- `downloadFlyfoneReport` (bot.js lines 204-225): `ensureLoggedIn` first,
then `GET /api/export/voice?…from_date=to_date=dateStr…`; a non-200 status
throws `Export failed: <status>`, otherwise the binary payload parses to the
first sheet's 2D array. -/
def downloadFlyfoneReport (w : PortalWorld) (creds : Creds) (dateStr : String) :
    PortalWorld × List Request × Except BotError (List Row) :=
  match ensureLoggedIn w creds.email creds.pass with
  | (w', reqs, Except.error e) => (w', reqs, Except.error e)
  | (w', reqs, Except.ok _) =>
      if w'.exportStatus = 200 then
        (w', reqs ++ [Request.getExport dateStr], Except.ok (w'.report dateStr))
      else
        (w', reqs ++ [Request.getExport dateStr],
         Except.error (BotError.exportError w'.exportStatus))

/-! ## Date parsing (`parseDateInput`, bot.js lines 251-261) -/

/-- The wall clock, as the formatted dates `dayjs(new Date()).format` and
`dayjs(new Date(Date.now() - 864e5)).format` would produce. -/
structure Clock where
  todayStr : String
  yesterdayStr : String

/-- `input.trim()` (strip leading/trailing whitespace). -/
def trimStr (s : String) : String :=
  ⟨((s.toList.dropWhile Char.isWhitespace).reverse.dropWhile Char.isWhitespace).reverse⟩

/-- Numeric value of one decimal digit character. -/
def digitVal (c : Char) : Nat := c.toNat - 48

/-- Gregorian leap year. -/
def isLeapYear (y : Nat) : Bool :=
  (y % 4 = 0 && !(y % 100 = 0)) || y % 400 = 0

/-- Days in a month. -/
def daysInMonth (y m : Nat) : Nat :=
  if m = 2 then (if isLeapYear y then 29 else 28)
  else if m = 4 || m = 6 || m = 9 || m = 11 then 30
  else 31

/-- Strict `YYYY-MM-DD` validity (`dayjs(txt, 'YYYY-MM-DD', true).isValid()`):
exactly ten characters, digits and dashes in place, and a real calendar
date. -/
def isValidIsoDate (s : String) : Bool :=
  match s.toList with
  | [y1, y2, y3, y4, h1, m1, m2, h2, d1, d2] =>
      y1.isDigit && y2.isDigit && y3.isDigit && y4.isDigit && h1 = '-' &&
      m1.isDigit && m2.isDigit && h2 = '-' && d1.isDigit && d2.isDigit &&
      (let y := ((digitVal y1 * 10 + digitVal y2) * 10 + digitVal y3) * 10 + digitVal y4
       let m := digitVal m1 * 10 + digitVal m2
       let d := digitVal d1 * 10 + digitVal d2
       1 ≤ m && m ≤ 12 && 1 ≤ d && d ≤ daysInMonth y m)
  | _ => false

/-- `parseDateInput` (bot.js lines 251-261): lowercase the trimmed input;
accept the literals `today`/`yesterday`, then a strict `YYYY-MM-DD` date,
then fall back to `chrono.parse` (the external `chrono-node` natural-language
parser, a parameter here); `null` when everything fails.  A parsed `Date` is
represented by its `YYYY-MM-DD` rendering. -/
def parseDateInput (chronoParse : String → Option String) (clock : Clock)
    (input : String) : Option String :=
  let txt := lowerStr (trimStr input)
  if txt = "today" then some clock.todayStr
  else if txt = "yesterday" then some clock.yesterdayStr
  else if isValidIsoDate txt then some txt
  else chronoParse txt

/-! ## `/summary <date> <team>` (bot.js lines 714-767) -/

/-- `text.split(/\s+/)` on command text (which has no leading whitespace):
the whitespace-separated words. -/
def wordsGo (acc : List Char) : List Char → List String
  | [] => if acc.isEmpty then [] else [⟨acc⟩]
  | c :: cs =>
      if c.isWhitespace then
        if acc.isEmpty then wordsGo [] cs else (⟨acc⟩ : String) :: wordsGo [] cs
      else wordsGo (acc ++ [c]) cs

/-- Split a message text into whitespace-separated words. -/
def splitWords (s : String) : List String := wordsGo [] s.toList

/-- `(r[6] || '').toString()`: the team cell with `undefined`/empty falling
back to the empty string. -/
def col6OrEmpty (r : Row) : String := (cellAt r 6).getD ""

/-- `r[5] || 'Unknown'`: the agent cell with `undefined` or `''` falling back
to `'Unknown'`. -/
def agentOrUnknown (r : Row) : String :=
  match cellAt r 5 with
  | some v => if v = "" then "Unknown" else v
  | none => "Unknown"

/-- Per-agent call counts of the summary (insertion-ordered counter object). -/
def countByAgent (records : List Row) : List (String × Nat) :=
  records.foldl (fun acc r => bumpCount acc (agentOrUnknown r)) []

/-- Stable descending insertion by count
(`Object.entries(counts).sort((a, b) => b[1] - a[1])`). -/
def insertDesc (x : String × Nat) : List (String × Nat) → List (String × Nat)
  | [] => [x]
  | y :: ys => if x.2 < y.2 then y :: insertDesc x ys else x :: y :: ys

/-- Stable descending sort by count. -/
def sortDesc : List (String × Nat) → List (String × Nat)
  | [] => []
  | x :: xs => insertDesc x (sortDesc xs)

/-- The final summary reply text (tags dropped, one line per agent). -/
def summaryText (team dateStr : String) (counts : List (String × Nat)) : String :=
  let lines := (sortDesc counts).map (fun p =>
    let a := p.1
    let c := p.2
    s!"• {a}: {c}")
  String.intercalate "\n" (s!"Summary for {team} on {dateStr}:" :: lines)

def summaryUsageMsg : String := "Usage: /summary <date|today|yesterday> <TeamName>"
def needLoginForSummaryMsg : String :=
  "You need to /fetch once (to log in) before using /summary."

/-- `Could not understand date "<rawDate>".` -/
def couldNotUnderstandMsg (rawDate : String) : String :=
  "Could not understand date \"" ++ rawDate ++ "\"."

/-- `No calls found for team "<team>" on <dateStr>.` -/
def noCallsMsg (team dateStr : String) : String :=
  "No calls found for team \"" ++ team ++ "\" on " ++ dateStr ++ "."

/-- The pure part of the `/summary` body.  It reads nothing from the store
except the Flyfone credential record: split the text, parse the date, check
the standing login, then fetch → normalize → filter by team → aggregate per
agent, all in one pass.  Returns the replies, the requests issued and the
world afterwards. -/
def summaryCompute (chronoParse : String → Option String) (clock : Clock)
    (w : PortalWorld) (creds? : Option Creds) (text : String) :
    List String × List Request × PortalWorld :=
  match (splitWords text).drop 1 with
  | [] => ([summaryUsageMsg], [], w)
  | [_] => ([summaryUsageMsg], [], w)
  | rawDate :: teamWords =>
      let team := String.intercalate " " teamWords
      match parseDateInput chronoParse clock rawDate with
      | none => ([couldNotUnderstandMsg rawDate], [], w)
      | some dateStr =>
          match creds? with
          | none => ([needLoginForSummaryMsg], [], w)
          | some creds =>
              let loading := s!"Loading summary for {team} on {dateStr}…"
              match downloadFlyfoneReport w creds dateStr with
              | (w', reqs, Except.error e) =>
                  let m := e.message
                  ([loading, s!"Error fetching report: {m}"], reqs, w')
              | (w', reqs, Except.ok rows) =>
                  let dataRows := (rows.drop 1).filter (fun r => col6OrEmpty r == team)
                  if dataRows.isEmpty then
                    ([loading, noCallsMsg team dateStr], reqs, w')
                  else
                    ([loading, summaryText team dateStr (countByAgent dataRows)], reqs, w')

/-- Outcome of a handler that also talks to the portal. -/
structure NetOut where
  store : Store
  world : PortalWorld
  msgs : List String := []
  reqs : List Request := []
  raised : Option String := none

/-- The `/summary` body: `summaryCompute` on the stored credential; the
session is neither read nor written. -/
def summaryBody (chronoParse : String → Option String) (clock : Clock)
    (w : PortalWorld) (s : Store) (text : String) : NetOut :=
  match summaryCompute chronoParse clock w s.flyfoneCreds text with
  | (msgs, reqs, w') => { store := s, world := w', msgs := msgs, reqs := reqs }

/-- The registered `/summary` command handler: `withSessionGuard` around the
body, so a missing session yields the expired notice and the mode-choice
prompt without running the pipeline. -/
def summaryHandler (chronoParse : String → Option String) (clock : Clock)
    (w : PortalWorld) (s : Store) (text : String) : NetOut :=
  match s.session with
  | none =>
      { store := { s with session := none }, world := w
        msgs := [sessionExpiredMsg, modeChoicePrompt] }
  | some _ => summaryBody chronoParse clock w s text

/-! ## The session writes (every `saveSession` site of bot.js)

One constructor per `saveSession(chatId, …)` call site, with the data the
site writes.  `applyWrite` maps the previously stored session (the empty
object when none was stored, matching `{...null}` / `getSession() || {}`;
sites that would throw on a missing session never reach their save) to the
session value persisted.

Sites: `/start` fresh (line 284), `linkSheet:yes` (290), `linkSheet:no`
(303), `/mode chat` (322), `/mode sheet` (331), `/sheet` (407),
`beginSheetFlow` (472), `beginChatFlow` (507), the chat calendar handler
(535), `chat_team` (554/701), the `await_email` (778) and `await_pass`
(796/808) text steps, `startFetchFlow` (830/854) and the sheet-mode `team:`
callback (887). -/

inductive SessionWrite
  | startFresh
  | linkSheetYes
  | linkSheetNo
  | modeChat
  | modeSheet
  | sheetCmd (sheetId : String)
  | beginSheet
  | beginChat
  | chatCalendar (rows : List Row) (dateStr : String)
  | chatTeamSel (team : String)
  | emailEntered (email : String)
  | passAccepted
  | passRejected
  | fetchFlowCache (rows : List Row) (dateStr : String) (sheetId : Option String)
  | sheetTeamSel (team : String)
deriving DecidableEq, Repr

/-- The session value each site persists, as a function of the session it
started from. -/
def applyWrite (wr : SessionWrite) (prev : ChatSession) : ChatSession :=
  match wr with
  | .startFresh => { emptySession with step := some "await_email" }
  | .linkSheetYes =>
      { prev with connectSheet := some true, mode := some "sheet",
                  step := some "await_sheet_url" }
  | .linkSheetNo =>
      { emptySession with connectSheet := some false, mode := some "chat" }
  | .modeChat => { prev with mode := some "chat", connectSheet := some false }
  | .modeSheet => { prev with mode := some "sheet", connectSheet := some true }
  | .sheetCmd sheetId => { prev with sheetId := some sheetId }
  | .beginSheet => { prev with step := some "sheet_await_date" }
  | .beginChat => { prev with step := some "chat_await_date" }
  | .chatCalendar rows dateStr =>
      { prev with rows := some rows, dateStr := some dateStr }
  | .chatTeamSel team => { prev with selectedTeam := some team }
  | .emailEntered email =>
      { prev with email := some email, step := some "await_pass" }
  | .passAccepted => { prev with step := some "await_mode" }
  | .passRejected => { prev with step := some "await_email" }
  | .fetchFlowCache rows dateStr sheetId =>
      { prev with rows := some rows, dateStr := some dateStr, sheetId := sheetId }
  | .sheetTeamSel team => { prev with selectedTeam := some team }

/-- The cache invariant: `rows` and `dateStr` are both present or both
absent. -/
def rowsDateInv (sess : ChatSession) : Prop :=
  sess.rows.isSome = sess.dateStr.isSome

instance (sess : ChatSession) : Decidable (rowsDateInv sess) := by
  unfold rowsDateInv; infer_instance

/-- Number of credential form POSTs in a request trace. -/
def countLoginPosts (reqs : List Request) : Nat :=
  (reqs.filter Request.isLoginPost).length

/-- A world whose cookie jar already holds a valid portal session. -/
def probeWorld : PortalWorld :=
  { loggedIn := true, csrfToken := some "tok", acceptedCreds := [("u@x", "pw")],
    exportStatus := 200, report := fun _ => [] }

/-- Modelled from the claim's words: the data row the claim predicts, listing
the mapped CallRecord fields with caller = raw column 0 first, then team (6),
callee (7), status (8), duration (9), talktime (10), hangupBy (11),
callDate (1), callTime (2), endTime (3). -/
def claimDataRow (r : Row) : List Cell :=
  [cellAt r 0, cellAt r 6, cellAt r 7, cellAt r 8, cellAt r 9,
   cellAt r 10, cellAt r 11, cellAt r 1, cellAt r 2, cellAt r 3]

/-- A concrete raw record whose caller (column 0) and agent (column 5)
differ: caller `0812345678`, agent `Alice`, team `Sales`. -/
def c5Row : Row :=
  [some "0812345678", some "2025-07-01", some "09:00:00", some "09:05:00",
   some "x4", some "Alice", some "Sales", some "0899999999", some "ANSWER",
   some "300", some "280", some "agent"]

/-- A session caching `c5Row` with team `sales` selected. -/
def c5Sess : ChatSession :=
  { mode := some "sheet", connectSheet := some true,
    rows := some [[], c5Row], dateStr := some "2025-07-01",
    selectedTeam := some "sales" }

/-- A store holding `c5Sess`. -/
def c5Store : Store := { session := some c5Sess }

/-! # Theorems for the specification claims -/

/-! ## Helper lemmas (shared) -/

theorem sumCounts_cons (p : String × Nat) (l : List (String × Nat)) :
    sumCounts (p :: l) = p.2 + sumCounts l := by
  simp [sumCounts]

theorem sumCounts_bumpCount (acc : List (String × Nat)) (k : String) :
    sumCounts (bumpCount acc k) = sumCounts acc + 1 := by
  induction acc with
  | nil => simp [bumpCount, sumCounts]
  | cons p rest ih =>
      rcases p with ⟨k', n⟩
      by_cases h : k = k'
      · simp [bumpCount, h, sumCounts_cons]
        omega
      · simp [bumpCount, h, sumCounts_cons, ih]
        omega

theorem sumCounts_foldl_bump (records : List Row) (acc : List (String × Nat)) :
    sumCounts (records.foldl (fun a r => bumpCount a (statusKey r)) acc) =
      sumCounts acc + records.length := by
  induction records generalizing acc with
  | nil => simp
  | cons r rest ih =>
      simp only [List.foldl_cons, ih, sumCounts_bumpCount, List.length_cons]
      omega

/-! ## C7 — per-status counts partition the filtered records -/

/-- C7: for every raw report and every team/agent selection, the per-status
counts computed by the `chat_agent` handler partition the filtered records
exactly: the sum of the counter's values equals the number of filtered
records (`total = records.length`). -/
theorem countByStatus_partitions (rows : List Row) (team agent : String) :
    sumCounts (countByStatus (filterTeamAgent rows team agent)) =
      (filterTeamAgent rows team agent).length := by
  unfold countByStatus
  simpa [sumCounts] using sumCounts_foldl_bump (filterTeamAgent rows team agent) []

/-! ## C6 — `rows` and `dateStr` are set together or both absent -/

/-- C6: every session value persisted by any `saveSession` site preserves the
invariant that `rows` and `dateStr` are both present or both absent: the
sites that touch the cache (`chatCalendar`, `fetchFlowCache`) always set the
two fields together, `startFresh`/`linkSheetNo` clear both, and every other
site leaves both unchanged. -/
theorem applyWrite_rowsDateInv (wr : SessionWrite) (prev : ChatSession)
    (h : rowsDateInv prev) : rowsDateInv (applyWrite wr prev) := by
  cases wr <;> simp_all [applyWrite, rowsDateInv, emptySession]

theorem applyWrite_rowsDateInv_witness :
    rowsDateInv emptySession ∧
      rowsDateInv (applyWrite (SessionWrite.chatCalendar [[some "h"]] "2025-07-01")
        emptySession) :=
  ⟨by decide, applyWrite_rowsDateInv _ emptySession (by decide)⟩

/-! ## C10 — `linkSheet:no` replaces the session wholesale, `linkSheet:yes` merges -/

/-- C10: pressing `No, keep in chat` persists exactly
`{ connectSheet: false, mode: 'chat' }`, discarding every other field the
session previously held, while `Yes, link a sheet` merges its three fields
into the existing session and leaves `email`, `sheetId`, `rows`, `dateStr`
and `selectedTeam` unchanged. -/
theorem linkSheet_frame (s : Store) (prev : ChatSession)
    (h : s.session = some prev) :
    (∃ next, (linkSheetNoHandler s).store.session = some next ∧
      next.connectSheet = some false ∧ next.mode = some "chat" ∧
      next.step = none ∧ next.sheetId = none ∧ next.email = none ∧
      next.rows = none ∧ next.dateStr = none ∧ next.selectedTeam = none) ∧
    (∃ next, (linkSheetYesHandler s).store.session = some next ∧
      next.connectSheet = some true ∧ next.mode = some "sheet" ∧
      next.step = some "await_sheet_url" ∧
      next.email = prev.email ∧ next.sheetId = prev.sheetId ∧
      next.rows = prev.rows ∧ next.dateStr = prev.dateStr ∧
      next.selectedTeam = prev.selectedTeam) := by
  have hyes : (linkSheetYesHandler s).store.session =
      some { prev with connectSheet := some true, mode := some "sheet",
                       step := some "await_sheet_url" } := by
    simp [linkSheetYesHandler, h]
  exact ⟨⟨_, rfl, rfl, rfl, rfl, rfl, rfl, rfl, rfl, rfl⟩,
         ⟨_, hyes, rfl, rfl, rfl, rfl, rfl, rfl, rfl, rfl⟩⟩

theorem linkSheet_frame_witness :
    ∃ prevSession : ChatSession,
      ({ session := some prevSession, sheetId := some "S" } : Store).session =
        some prevSession ∧
      (∃ next, (linkSheetNoHandler { session := some prevSession, sheetId := some "S" }).store.session = some next ∧
        next.connectSheet = some false ∧ next.mode = some "chat" ∧
        next.step = none ∧ next.sheetId = none ∧ next.email = none ∧
        next.rows = none ∧ next.dateStr = none ∧ next.selectedTeam = none) := by
  refine ⟨{ step := some "await_mode", email := some "u@x" }, rfl, ?_⟩
  exact (linkSheet_frame _ _ rfl).1

/-! ## C3 — `/logout` (code bug: `deleteSheet` is not imported) -/

/-- C3: `/logout` does not behave as specified.  `deleteSheet` is exported by
`state.js` but absent from the import list of `bot.js` line 14
(`botModuleImports`), so the handler throws
`ReferenceError: deleteSheet is not defined` while evaluating the
`Promise.all` argument array: the four deletions already launched (portal
credential, refresh token, session, cookies) complete, but the linked sheet
id is never deleted and the logged-out confirmation is never sent. -/
theorem logout_throws_referenceError (s : Store) :
    botModuleImports.contains "deleteSheet" = false ∧
    (logoutHandler s).raised = some "ReferenceError: deleteSheet is not defined" ∧
    (logoutHandler s).msgs = [] ∧
    (logoutHandler s).store.sheetId = s.sheetId ∧
    (logoutHandler s).store.flyfoneCreds = none ∧
    (logoutHandler s).store.refreshToken = none ∧
    (logoutHandler s).store.session = none ∧
    (logoutHandler s).store.cookies = none := by
  have h : botModuleImports.contains "deleteSheet" = false := by decide
  refine ⟨h, ?_⟩
  unfold logoutHandler
  rw [h]
  simp

/-! ## C1 — session guard (corrected: `beginChatFlow` is not guarded) -/

/-- C1 counterexample: `beginChatFlow` assumes an active session (it runs
`sess.step = 'chat_await_date'` on the result of `getSession`), so invoking
it with no session stored raises a `TypeError` — it neither sends the
session-expired notice nor re-issues the mode-choice prompt.  This refutes
the claim that every session-assuming handler never raises on a missing
session. -/
theorem beginChatFlow_no_session_raises :
    (beginChatFlow ({} : Store)).raised =
      some "TypeError: Cannot set properties of null" ∧
    (beginChatFlow ({} : Store)).msgs = [] := by
  decide

/-- C1 (amended): every step-specific callback handler wrapped in
`withSessionGuard` — team selection (`chat_team`, sheet-mode `team:`), agent
selection (`chat_agent`), and the write-mode choice (`sheetMode:`) — never
raises when no session is stored for the chat: the guard sends the
session-expired notice, re-issues the mode-choice prompt and skips the body.
The unguarded helpers `beginChatFlow`/`beginSheetFlow`, however, do assume a
session and raise a `TypeError` when none is stored. -/
theorem sessionGuard_mode_choice_restart
    (body : Store → HOut) (team agent : String) (ov : Bool) (s : Store)
    (h : s.session = none) :
    withSessionGuard body s =
      { store := { s with session := none }
        msgs := [sessionExpiredMsg, modeChoicePrompt] } ∧
    chatTeamHandler team s = withSessionGuard (chatTeamBody team) s ∧
    chatAgentHandler team agent s = withSessionGuard (chatAgentBody team agent) s ∧
    teamCbHandler team s = withSessionGuard (teamCbBody team) s ∧
    sheetModeHandler ov s = withSessionGuard (sheetModeBody ov) s ∧
    (beginChatFlow s).raised = some "TypeError: Cannot set properties of null" ∧
    (beginChatFlow s).msgs = [] := by
  refine ⟨?_, rfl, rfl, rfl, rfl, ?_, ?_⟩ <;>
    simp [withSessionGuard, beginChatFlow, h]

theorem sessionGuard_mode_choice_restart_witness :
    ({} : Store).session = none ∧
    (withSessionGuard (fun st => { store := st }) ({} : Store)).msgs =
      [sessionExpiredMsg, modeChoicePrompt] ∧
    (withSessionGuard (fun st => { store := st }) ({} : Store)).raised = none := by
  have h := sessionGuard_mode_choice_restart (fun st => { store := st })
    "Sales" "Alice" true ({} : Store) rfl
  exact ⟨rfl, by rw [h.1], by rw [h.1]⟩

/-! ## C8 — `ensureLoggedIn` probe idempotence -/


theorem ensureLoggedIn_ok_loggedIn (w : PortalWorld) (email pass : String)
    (w' : PortalWorld) (reqs : List Request)
    (h : ensureLoggedIn w email pass = (w', reqs, Except.ok ())) :
    w'.loggedIn = true := by
  unfold ensureLoggedIn at h
  split at h
  · next hl =>
      simp only [Prod.mk.injEq] at h
      obtain ⟨hw, -, -⟩ := h
      rw [← hw]
      exact hl
  · next hl =>
      split at h
      · simp at h
      · split at h
        · simp only [Prod.mk.injEq] at h
          obtain ⟨hw, -, -⟩ := h
          rw [← hw]
        · simp at h

/-- C8: when the chat's cookie session is valid (`GET /dashboard` answers
200), `ensureLoggedIn` returns right after the probe, issuing no other
request and leaving the world untouched; consequently a second
`ensureLoggedIn` after any successful call (no logout in between) issues
zero login POSTs — its whole trace is the single probe. -/
theorem ensureLoggedIn_idempotent (w : PortalWorld) (email pass : String) :
    (w.loggedIn = true →
      ensureLoggedIn w email pass = (w, [Request.probeDashboard], Except.ok ())) ∧
    (∀ w' reqs, ensureLoggedIn w email pass = (w', reqs, Except.ok ()) →
      (ensureLoggedIn w' email pass).2.1 = [Request.probeDashboard] ∧
      countLoginPosts (ensureLoggedIn w' email pass).2.1 = 0) := by
  constructor
  · intro hl
    simp [ensureLoggedIn, hl]
  · intro w' reqs h
    have hl' := ensureLoggedIn_ok_loggedIn w email pass w' reqs h
    have h2 : ensureLoggedIn w' email pass =
        (w', [Request.probeDashboard], Except.ok ()) := by
      simp [ensureLoggedIn, hl']
    rw [h2]
    exact ⟨rfl, rfl⟩


theorem ensureLoggedIn_idempotent_witness :
    probeWorld.loggedIn = true ∧
    countLoginPosts (ensureLoggedIn probeWorld "u@x" "pw").2.1 = 0 := by
  refine ⟨rfl, ?_⟩
  have h1 := (ensureLoggedIn_idempotent probeWorld "u@x" "pw").1 rfl
  exact ((ensureLoggedIn_idempotent probeWorld "u@x" "pw").2 probeWorld
    [Request.probeDashboard] h1).2

/-! ## C4 — the fuzzy agent matcher -/

theorem levBest_go (input : String) (l : List String) :
    ∀ b0 : String,
      ∃ b, List.foldl (levStep input) (some (b0, levScore input b0)) l =
              some (b, levScore input b) ∧
        (b = b0 ∨ b ∈ l) ∧
        levScore input b = (l.map (levScore input)).foldl min (levScore input b0) := by
  induction l with
  | nil => intro b0; exact ⟨b0, rfl, Or.inl rfl, rfl⟩
  | cons a rest ih =>
      intro b0
      by_cases hlt : levScore input a < levScore input b0
      · obtain ⟨b, hfold, hmem, hmin⟩ := ih a
        refine ⟨b, ?_, ?_, ?_⟩
        · rw [List.foldl_cons]
          have hstep : levStep input (some (b0, levScore input b0)) a =
              some (a, levScore input a) := by
            simp [levStep, hlt]
          rw [hstep]
          exact hfold
        · rcases hmem with rfl | hm
          · exact Or.inr (List.mem_cons_self _ _)
          · exact Or.inr (List.mem_cons_of_mem _ hm)
        · rw [List.map_cons, List.foldl_cons,
              Nat.min_eq_right (Nat.le_of_lt hlt)]
          exact hmin
      · obtain ⟨b, hfold, hmem, hmin⟩ := ih b0
        refine ⟨b, ?_, ?_, ?_⟩
        · rw [List.foldl_cons]
          have hstep : levStep input (some (b0, levScore input b0)) a =
              some (b0, levScore input b0) := by
            simp [levStep, hlt]
          rw [hstep]
          exact hfold
        · rcases hmem with rfl | hm
          · exact Or.inl rfl
          · exact Or.inr (List.mem_cons_of_mem _ hm)
        · rw [List.map_cons, List.foldl_cons,
              Nat.min_eq_left (Nat.not_lt.mp hlt)]
          exact hmin

theorem levBest_attains_min (agents : List String) (input : String)
    (hne : agents ≠ []) :
    ∃ b, b ∈ agents ∧ levBest agents input = some (b, levScore input b) ∧
      minScore? agents input = some (levScore input b) := by
  match agents, hne with
  | a :: rest, _ =>
      obtain ⟨b, hfold, hmem, hmin⟩ := levBest_go input rest a
      refine ⟨b, ?_, ?_, ?_⟩
      · rcases hmem with rfl | hm
        · exact List.mem_cons_self _ _
        · exact List.mem_cons_of_mem _ hm
      · unfold levBest
        rw [List.foldl_cons]
        have hstep : levStep input none a = some (a, levScore input a) := rfl
        rw [hstep]
        exact hfold
      · unfold minScore?
        simp only [List.map_cons]
        rw [hmin]

/-- C4: the matcher of `/agent <text>` computes the Levenshtein distance
between the lowercased query and each lowercased candidate while tracking the
minimum, independently looks for a candidate whose lowercased text contains
the query, and resolves as the claim states: the substring match is returned
unless the minimum edit distance is ≤ 2, in which case a candidate attaining
the minimum wins; an empty candidate list gives `null`; and
`bestAgentMatch ["Jane Doe", "Jan Lee"] "jane"` is `"Jane Doe"`. -/
theorem bestAgentMatch_resolution :
    (∀ q, bestAgentMatch [] q = none) ∧
    (∀ agents q s m,
        agents.find? (fun a => strIncludes (lowerStr a) (lowerStr q)) = some s →
        minScore? agents (lowerStr q) = some m → 2 < m →
        bestAgentMatch agents q = some s) ∧
    (∀ agents q m,
        minScore? agents (lowerStr q) = some m → m ≤ 2 →
        ∃ b, b ∈ agents ∧ levScore (lowerStr q) b = m ∧
          bestAgentMatch agents q = some b) ∧
    bestAgentMatch ["Jane Doe", "Jan Lee"] "jane" = some "Jane Doe" := by
  have hne : ∀ (agents : List String) (input : String) (m : Nat),
      minScore? agents input = some m → agents ≠ [] := by
    intro agents input m hm h
    subst h
    simp [minScore?] at hm
  refine ⟨fun q => rfl, ?_, ?_, by decide⟩
  · intro agents q s m hs hm hgt
    obtain ⟨b, hbmem, hbest, hminb⟩ :=
      levBest_attains_min agents (lowerStr q) (hne agents _ m hm)
    rw [hm] at hminb
    obtain rfl : m = levScore (lowerStr q) b := Option.some.inj hminb
    unfold bestAgentMatch
    rw [hbest, hs]
    simp [hgt]
  · intro agents q m hm hle
    obtain ⟨b, hbmem, hbest, hminb⟩ :=
      levBest_attains_min agents (lowerStr q) (hne agents _ m hm)
    rw [hm] at hminb
    obtain rfl : m = levScore (lowerStr q) b := Option.some.inj hminb
    refine ⟨b, hbmem, rfl, ?_⟩
    unfold bestAgentMatch
    rw [hbest]
    cases hfind : agents.find? (fun a => strIncludes (lowerStr a) (lowerStr q)) with
    | none => rfl
    | some s => simp [Nat.not_lt.mpr hle]

theorem bestAgentMatch_resolution_witness :
    (["Jane Doe", "Jan Lee"].find?
        (fun a => strIncludes (lowerStr a) (lowerStr "jane")) = some "Jane Doe") ∧
    minScore? ["Jane Doe", "Jan Lee"] (lowerStr "jane") = some 3 ∧ 2 < 3 ∧
    bestAgentMatch ["Jane Doe", "Jan Lee"] "jane" = some "Jane Doe" := by
  refine ⟨by decide, by decide, by decide, ?_⟩
  exact bestAgentMatch_resolution.2.1 ["Jane Doe", "Jan Lee"] "jane" "Jane Doe" 3
    (by decide) (by decide) (by decide)

/-! ## C5 — spreadsheet row shape (corrected: column 5, not column 0, comes first) -/


/-- C5 counterexample: on a concrete record whose caller (column 0) and agent
(column 5) differ, the matrix handed to `writeToSheet` starts its data row
with column 5 (`"Alice"`, the agent), not column 0 (`"0812345678"`, the
caller), so the written row is not the row the claim predicts. -/
theorem sheetWrite_claim_counterexample :
    (sheetModeHandler true c5Store).sheetWrites =
      [{ sheetId := none, values := [sheetHeader, mapSheetRow c5Row],
         overwrite := true }] ∧
    (mapSheetRow c5Row).head? = some (some "Alice") ∧
    cellAt c5Row 0 = some "0812345678" ∧
    mapSheetRow c5Row ≠ claimDataRow c5Row := by
  decide

/-- C5 (amended): every spreadsheet write is exactly the fixed 10-column
header `Caller, Team, Callee, Status, Duration (s), Talktime (s), Hangup By,
Call Date, Call Time, End Time` followed by the team-filtered records mapped
to raw columns `[5, 6, 7, 8, 9, 10, 11, 1, 2, 3]` in that order — i.e. the
field written under the `Caller` title is raw column 5 (the agent), not raw
column 0 (the caller); the remaining columns are as the claim states. -/
theorem sheetWrite_format (ov : Bool) (s : Store) (sess : ChatSession)
    (rows : List Row) (hs : s.session = some sess) (hr : sess.rows = some rows) :
    (sheetModeHandler ov s).sheetWrites =
      [{ sheetId := sess.sheetId,
         values := sheetHeader :: (sheetFilter rows sess.selectedTeam).map mapSheetRow,
         overwrite := ov }] ∧
    sheetHeader = [some "Caller", some "Team", some "Callee", some "Status",
      some "Duration (s)", some "Talktime (s)", some "Hangup By",
      some "Call Date", some "Call Time", some "End Time"] ∧
    (∀ r, mapSheetRow r =
      [cellAt r 5, cellAt r 6, cellAt r 7, cellAt r 8, cellAt r 9,
       cellAt r 10, cellAt r 11, cellAt r 1, cellAt r 2, cellAt r 3]) := by
  refine ⟨?_, rfl, fun r => rfl⟩
  simp [sheetModeHandler, withSessionGuard, sheetModeBody, hs, hr]

theorem sheetWrite_format_witness :
    (sheetModeHandler false
        { session := some ({ rows := some [[]], sheetId := some "SID" } : ChatSession) }).sheetWrites =
      [{ sheetId := some "SID", values := [sheetHeader], overwrite := false }] := by
  have h := sheetWrite_format false
    { session := some ({ rows := some [[]], sheetId := some "SID" } : ChatSession) }
    ({ rows := some [[]], sheetId := some "SID" } : ChatSession) [[]] rfl rfl
  rw [h.1]
  decide

/-! ## C2 — `/summary` (corrected: guarded, but step-independent) -/

/-- C2 counterexample: with a stored portal credential but no workflow
session at all, `/summary today Sales` does not run the pipeline: the
session guard wrapped around the command replies with the session-expired
notice and the mode-choice prompt, and no HTTP request is issued. -/
theorem summary_no_session_counterexample :
    (summaryHandler (fun _ => none) ⟨"2025-10-11", "2025-10-10"⟩ probeWorld
        { flyfoneCreds := some ⟨"u@x", "pw"⟩ } "/summary today Sales").msgs =
      [sessionExpiredMsg, modeChoicePrompt] ∧
    (summaryHandler (fun _ => none) ⟨"2025-10-11", "2025-10-10"⟩ probeWorld
        { flyfoneCreds := some ⟨"u@x", "pw"⟩ } "/summary today Sales").reqs = [] := by
  decide

theorem summaryCompute_pipeline (chronoParse : String → Option String)
    (clock : Clock) (w : PortalWorld) (creds : Creds)
    (rawDate team dateStr text : String)
    (hsplit : splitWords text = ["/summary", rawDate, team])
    (hparse : parseDateInput chronoParse clock rawDate = some dateStr)
    (hlog : w.loggedIn = true) (hexp : w.exportStatus = 200) :
    ∃ final, summaryCompute chronoParse clock w (some creds) text =
      ([s!"Loading summary for {team} on {dateStr}…", final],
       [Request.probeDashboard, Request.getExport dateStr], w) := by
  have he : ensureLoggedIn w creds.email creds.pass =
      (w, [Request.probeDashboard], Except.ok ()) := by
    simp [ensureLoggedIn, hlog]
  have hdl : downloadFlyfoneReport w creds dateStr =
      (w, [Request.probeDashboard, Request.getExport dateStr],
       Except.ok (w.report dateStr)) := by
    unfold downloadFlyfoneReport
    rw [he]
    dsimp only
    rw [hexp]
    simp
  have hteam : String.intercalate " " [team] = team := rfl
  unfold summaryCompute
  rw [hsplit]
  simp only [List.drop_succ_cons, List.drop_zero, hteam, hparse, hdl]
  by_cases hempty :
      (((w.report dateStr).drop 1).filter (fun r => col6OrEmpty r == team)).isEmpty = true
  · refine ⟨noCallsMsg team dateStr, ?_⟩
    rw [if_pos hempty]
  · refine ⟨summaryText team dateStr (countByAgent
        (((w.report dateStr).drop 1).filter (fun r => col6OrEmpty r == team))), ?_⟩
    rw [if_neg hempty]

/-- C2 (amended): `/summary <date> <team>` is independent of the session's
`step` (and of every other workflow field): its body reads only the stored
portal credential and, given standing login, runs login-check → fetch →
normalize → aggregate in one shot (the whole trace is the dashboard probe
followed by the export GET, with no `AWAIT_*` staging).  However, because the
command is wrapped in `withSessionGuard`, it does require *some* stored
session: with none it replies session-expired and re-issues the mode choice
(see the counterexample). -/
theorem summary_one_shot (chronoParse : String → Option String) (clock : Clock)
    (w : PortalWorld) (s : Store) (text : String) (sess : ChatSession)
    (hsess : s.session = some sess) :
    summaryHandler chronoParse clock w s text = summaryBody chronoParse clock w s text ∧
    (∀ s' : Store, s'.flyfoneCreds = s.flyfoneCreds →
      (summaryBody chronoParse clock w s' text).msgs =
        (summaryBody chronoParse clock w s text).msgs ∧
      (summaryBody chronoParse clock w s' text).reqs =
        (summaryBody chronoParse clock w s text).reqs) ∧
    (∀ rawDate team dateStr creds,
      splitWords text = ["/summary", rawDate, team] →
      parseDateInput chronoParse clock rawDate = some dateStr →
      s.flyfoneCreds = some creds →
      w.loggedIn = true → w.exportStatus = 200 →
      (summaryHandler chronoParse clock w s text).reqs =
        [Request.probeDashboard, Request.getExport dateStr] ∧
      (summaryHandler chronoParse clock w s text).msgs.head? =
        some s!"Loading summary for {team} on {dateStr}…" ∧
      (summaryHandler chronoParse clock w s text).store = s ∧
      (summaryHandler chronoParse clock w s text).raised = none) := by
  have hred : summaryHandler chronoParse clock w s text =
      summaryBody chronoParse clock w s text := by
    unfold summaryHandler
    rw [hsess]
  refine ⟨hred, ?_, ?_⟩
  · intro s' h'
    constructor <;> simp [summaryBody, h']
  · intro rawDate team dateStr creds hsplit hparse hcreds hlog hexp
    obtain ⟨final, hcomp⟩ := summaryCompute_pipeline chronoParse clock w creds
      rawDate team dateStr text hsplit hparse hlog hexp
    rw [hred]
    unfold summaryBody
    rw [hcreds, hcomp]
    exact ⟨rfl, rfl, rfl, rfl⟩

theorem summary_one_shot_witness :
    (summaryHandler (fun _ => none) ⟨"2025-10-11", "2025-10-10"⟩ probeWorld
        { flyfoneCreds := some ⟨"u@x", "pw"⟩,
          session := some ({ step := some "await_email" } : ChatSession) }
        "/summary today Sales").reqs =
      [Request.probeDashboard, Request.getExport "2025-10-11"] := by
  have h := summary_one_shot (fun _ => none) ⟨"2025-10-11", "2025-10-10"⟩
    probeWorld
    { flyfoneCreds := some ⟨"u@x", "pw"⟩,
      session := some ({ step := some "await_email" } : ChatSession) }
    "/summary today Sales" ({ step := some "await_email" } : ChatSession) rfl
  exact (h.2.2 "today" "Sales" "2025-10-11" ⟨"u@x", "pw"⟩
    (by decide) (by decide) rfl rfl rfl).1

/-! ## C9 — date-argument parsing and the unparseable-date path -/

theorem isValidIsoDate_ne_literals {t : String} (h : isValidIsoDate t = true) :
    t ≠ "today" ∧ t ≠ "yesterday" := by
  constructor <;> intro he <;> rw [he] at h <;> exact absurd h (by decide)

/-- C9: `parseDateInput` accepts the literals `today` and `yesterday`, strict
`YYYY-MM-DD` dates and whatever the best-effort natural-language parser
returns; and whenever an input parses by none of these, `/summary` (given any
stored session) replies only with the user-facing
`Could not understand date "…"` message, raises nothing, issues no HTTP
request and leaves the store — hence any would-be default date — untouched. -/
theorem parseDate_spec (chronoParse : String → Option String) (clock : Clock) :
    parseDateInput chronoParse clock "today" = some clock.todayStr ∧
    parseDateInput chronoParse clock "yesterday" = some clock.yesterdayStr ∧
    (∀ s, isValidIsoDate (lowerStr (trimStr s)) = true →
        parseDateInput chronoParse clock s = some (lowerStr (trimStr s))) ∧
    (∀ s d, lowerStr (trimStr s) ≠ "today" → lowerStr (trimStr s) ≠ "yesterday" →
        isValidIsoDate (lowerStr (trimStr s)) = false →
        chronoParse (lowerStr (trimStr s)) = some d →
        parseDateInput chronoParse clock s = some d) ∧
    (∀ (w : PortalWorld) (s : Store) (sess : ChatSession) (text rawDate team : String),
        s.session = some sess →
        splitWords text = ["/summary", rawDate, team] →
        parseDateInput chronoParse clock rawDate = none →
        summaryHandler chronoParse clock w s text =
          { store := s, world := w, msgs := [couldNotUnderstandMsg rawDate]
            reqs := [], raised := none }) := by
  refine ⟨rfl, rfl, ?_, ?_, ?_⟩
  · intro s hiso
    have hne := isValidIsoDate_ne_literals hiso
    unfold parseDateInput
    rw [if_neg hne.1, if_neg hne.2, if_pos hiso]
  · intro s d h1 h2 hiso hch
    unfold parseDateInput
    rw [if_neg h1, if_neg h2, if_neg (by simp [hiso]), hch]
  · intro w s sess text rawDate team hsess hsplit hparse
    unfold summaryHandler
    rw [hsess]
    unfold summaryBody summaryCompute
    rw [hsplit]
    simp only [List.drop_succ_cons, List.drop_zero]
    rw [hparse]

theorem parseDate_spec_witness :
    parseDateInput (fun _ => none) ⟨"2025-10-11", "2025-10-10"⟩ "2025-07-01" =
      some "2025-07-01" ∧
    (summaryHandler (fun _ => none) ⟨"2025-10-11", "2025-10-10"⟩ probeWorld
        { flyfoneCreds := some ⟨"u@x", "pw"⟩,
          session := some ({} : ChatSession) }
        "/summary notadate Sales").msgs = [couldNotUnderstandMsg "notadate"] := by
  have h := parseDate_spec (fun _ => none) (⟨"2025-10-11", "2025-10-10"⟩ : Clock)
  constructor
  · have hiso := h.2.2.1 "2025-07-01" (by decide)
    rw [show lowerStr (trimStr "2025-07-01") = "2025-07-01" from by decide] at hiso
    exact hiso
  · have h5 := h.2.2.2.2 probeWorld
      { flyfoneCreds := some ⟨"u@x", "pw"⟩, session := some ({} : ChatSession) }
      ({} : ChatSession) "/summary notadate Sales" "notadate" "Sales"
      rfl (by decide) (by decide)
    rw [h5]

end FlyfoneBot
